import Mathlib

/-!
Verification of the TVL aggregation pipeline of suilend-strategies-monitor
(src/TVLMonitor.tsx, function calculateStrategyWrapperTVL).

The pipeline stages embedded here (shallow embedding):
  * field extraction of StrategyCapInfo records from resolved cap objects,
  * the adaptive batch fetcher (batch controller with recovery mode),
  * the per-position fetch with local retry/backoff,
  * the cleanup pass over failed records,
  * the final aggregation into a TVLSummary.

Remote fetches are modelled by oracles, functions from an obligation id and
an attempt number to an optional result.  JavaScript floating point numbers
carrying USD values are modelled as rationals; for every comparison the
controller performs (success rate against 70 / 90 / 95, the ceil-of-20%
failure threshold) the rational value agrees with the IEEE-754 double for
all batch lengths that can occur (batch length is at most 20), which is
checked case by case in the comments next to the relevant definitions.
-/

namespace TVLMonitor

/-- Extracted record (interface StrategyCapInfo, TVLMonitor.tsx lines 18-23). -/
structure StrategyCapInfo where
  objectId : String
  obligationId : String
  strategyType : Int
  owner : String
deriving DecidableEq, Repr

/-- Per-position summary (interface ObligationSummary, lines 25-33). -/
structure ObligationSummary where
  obligationId : String
  deposited_value_usd : ℚ
  unweighted_borrowed_value_usd : ℚ
  net_value_usd : ℚ
  strategyType : Int
  owner : String
  objectId : String
deriving DecidableEq, Repr

/-- Final report (interface TVLSummary, lines 35-41). -/
structure TVLSummary where
  totalTVL : ℚ
  totalDeposits : ℚ
  totalBorrows : ℚ
  strategyCount : Nat
  obligations : List ObligationSummary
deriving DecidableEq, Repr

/-- Raw result of a successful getObligation call: the two fixed-point USD
values read by the pipeline (obligation.depositedValueUsd.value and
obligation.unweightedBorrowedValueUsd.value, scaled by 10^18 on the wire). -/
structure ObData where
  depositedValueUsd : ℚ
  unweightedBorrowedValueUsd : ℚ
deriving DecidableEq, Repr

/-- A resolved StrategyOwnerCap object, as far as the extractor reads it
(lines 248-262): object id, the nested inner_cap obligation id when the
inner_cap field is populated (none models a null / borrowed inner cap or a
missing fields shape), the strategy type and the owner address (the
resolver substitutes "Unknown" when absent). -/
structure ResolvedCap where
  objectId : String
  innerObligationId : Option String
  strategyType : Int
  owner : String
deriving DecidableEq, Repr

/-- Adaptive batch controller state (lines 283-289).  totalProcessed, which
the source also tracks, feeds no branch and no output and is omitted. -/
structure BatchState where
  currentBatchSize : Nat
  currentDelay : Nat
  consecutiveSuccesses : Nat
  consecutiveFailures : Nat
  failureRecoveryMode : Bool
  lastFailureCount : Nat
deriving DecidableEq, Repr

/-- Controller state at the start of the run (lines 283-289):
batchSize 15, delay 300 ms, counters 0, recovery mode off. -/
def initController : BatchState :=
  { currentBatchSize := 15
    currentDelay := 300
    consecutiveSuccesses := 0
    consecutiveFailures := 0
    failureRecoveryMode := false
    lastFailureCount := 0 }

/-- Running accumulator of the fetch passes (lines 275-278): the obligations
list and the three running totals. -/
structure Accum where
  obligations : List ObligationSummary
  totalDeposits : ℚ
  totalBorrows : ℚ
  totalTVL : ℚ
deriving DecidableEq, Repr

/-- Empty accumulator. -/
def accum0 : Accum :=
  { obligations := [], totalDeposits := 0, totalBorrows := 0, totalTVL := 0 }

/-- Step 2 (lines 246-262): keep each cap whose inner_cap is populated,
reading the obligation id out of it; caps with a null inner_cap contribute
nothing. -/
def extractCapInfos (caps : List ResolvedCap) : List StrategyCapInfo :=
  caps.filterMap fun c =>
    c.innerObligationId.map fun oid =>
      { objectId := c.objectId
        obligationId := oid
        strategyType := c.strategyType
        owner := c.owner }

/-- Math.ceil(batch.length * 0.2), line 384.  For every batch length n that
the run can produce (n is at most 20, the batch size cap) the IEEE-754
double n * 0.2 rounds to a value whose ceiling equals the exact ceiling of
n / 5: for n = 5, 10, 15, 20 the product rounds to the integer itself
(the excess n * (0.2 - 1/5) is below half an ulp), and for the other n the
product is far from any integer.  So the Nat ceiling (n + 3 + 1) / 5 is the
exact value the source computes. -/
def ceilFifth (n : Nat) : Nat := (n + 4) / 5

/-- (batchSuccesses / batch.length) * 100, line 379, as an exact rational.
All comparisons performed on it (< 70, at least 90, at least 95) agree with
the double computation for every pair (successes, length) with
length at most 20; the only boundary cases 7/10, 14/20 (70), 9/10, 18/20
(90) and 19/20 (95) round back to the exact percentage. -/
def batchSuccessRate (batchLen batchSuccesses : Nat) : ℚ :=
  ((batchSuccesses : ℚ) / (batchLen : ℚ)) * 100

/-- The controller transition run after every main-pass batch
(lines 381-450).  Branches in source order:
  * any failures and (failures > ceil(len * 0.2) or rate < 70):
    aggressive slowdown, enter recovery mode;
  * any failures otherwise: moderate slowdown;
  * no failures and rate at least 95: success counting, recovery-mode exit
    at 3 accumulated successes, speed-up outside recovery mode at 2;
  * no failures and rate at least 90: success counting only;
  * otherwise: reset consecutiveSuccesses (and consecutiveFailures, since
    the guard !hasAnyFailures of line 447 always holds in this branch). -/
def updateController (st : BatchState) (batchLen batchSuccesses batchFailures : Nat) :
    BatchState :=
  let rate : ℚ := batchSuccessRate batchLen batchSuccesses
  if 0 < batchFailures then
    if ceilFifth batchLen < batchFailures ∨ rate < 70 then
      { st with
          failureRecoveryMode := true
          consecutiveFailures := st.consecutiveFailures + 1
          consecutiveSuccesses := 0
          currentBatchSize := max (st.currentBatchSize - 5) 3
          currentDelay := min (st.currentDelay + 400) 2000
          lastFailureCount := batchFailures }
    else
      { st with
          currentBatchSize := max (st.currentBatchSize - 2) 5
          currentDelay := min (st.currentDelay + 200) 2000
          lastFailureCount := batchFailures }
  else if 95 ≤ rate then
    let cs := st.consecutiveSuccesses + 1
    let rm := if st.failureRecoveryMode = true ∧ 3 ≤ cs then false else st.failureRecoveryMode
    if rm = false ∧ 2 ≤ cs then
      { st with
          consecutiveSuccesses := cs
          consecutiveFailures := 0
          failureRecoveryMode := rm
          currentBatchSize := min (st.currentBatchSize + 3) 20
          currentDelay := max (st.currentDelay - 100) 100 }
    else
      { st with
          consecutiveSuccesses := cs
          consecutiveFailures := 0
          failureRecoveryMode := rm }
  else if 90 ≤ rate then
    { st with
        consecutiveSuccesses := st.consecutiveSuccesses + 1
        consecutiveFailures := 0 }
  else
    { st with
        consecutiveSuccesses := 0
        consecutiveFailures := 0 }

/-- An oracle for a remote getObligation call on one obligation id: given an
attempt number (counted from 1), either the fetched data or a failure. -/
def FetchOracle : Type := Nat → Option ObData

/-- The per-record retry loop, shared shape of the main-pass retry
(lines 307-356: up to 3 attempts, backoff attempt * 1000 ms between failed
attempts) and the cleanup retry (lines 509-560: up to 5 attempts, backoff
attempt * 2000 ms).  Returns the first successful result, or none once the
attempt budget is exhausted, together with the total backoff waited; no
failure escapes the loop.  attempt is the current attempt number, remaining
the number of attempts still allowed. -/
def runAttempts (oracle : FetchOracle) (stepMs : Nat) :
    Nat → Nat → Option ObData × Nat
  | _, 0 => (none, 0)
  | attempt, remaining + 1 =>
    match oracle attempt with
    | some d => (some d, 0)
    | none =>
      if remaining = 0 then (none, 0)
      else
        let r := runAttempts oracle stepMs (attempt + 1) remaining
        (r.1, attempt * stepMs + r.2)

/-- Main-pass fetch of one obligation: 3 attempts, backoff attempt * 1000 ms
(lines 307-356). -/
def fetchMainPass (oracle : FetchOracle) : Option ObData × Nat :=
  runAttempts oracle 1000 1 3

/-- Cleanup-pass fetch of one obligation: 5 attempts, backoff
attempt * 2000 ms (lines 509-560). -/
def fetchCleanupPass (oracle : FetchOracle) : Option ObData × Nat :=
  runAttempts oracle 2000 1 5

/-- Building one ObligationSummary from a successful fetch (lines 318-333 and
518-533): scale the two wire values down by 10^18 and take the difference as
the net value. -/
def mkObligationSummary (cap : StrategyCapInfo) (d : ObData) : ObligationSummary :=
  let depositedUSD : ℚ := d.depositedValueUsd / 10 ^ 18
  let borrowedUSD : ℚ := d.unweightedBorrowedValueUsd / 10 ^ 18
  { obligationId := cap.obligationId
    deposited_value_usd := depositedUSD
    unweighted_borrowed_value_usd := borrowedUSD
    net_value_usd := depositedUSD - borrowedUSD
    strategyType := cap.strategyType
    owner := cap.owner
    objectId := cap.objectId }

/-- Appending one successful fetch to the accumulator (lines 368-371 in the
main pass, 535-538 in the cleanup pass): push the summary and add the
deposited value to totalDeposits and totalTVL, the borrowed value to
totalBorrows. -/
def pushSummary (acc : Accum) (cap : StrategyCapInfo) (d : ObData) : Accum :=
  let s := mkObligationSummary cap d
  { obligations := acc.obligations ++ [s]
    totalDeposits := acc.totalDeposits + s.deposited_value_usd
    totalBorrows := acc.totalBorrows + s.unweighted_borrowed_value_usd
    totalTVL := acc.totalTVL + s.deposited_value_usd }

/-- Folding one batch of per-record results into the accumulator while
counting successes and failures (lines 362-376): a fetched record is pushed,
a null is only counted.  Returns (accumulator, successes, failures). -/
def applyBatchResults (acc : Accum) :
    List (StrategyCapInfo × Option ObData) → Accum × Nat × Nat
  | [] => (acc, 0, 0)
  | (cap, some d) :: rest =>
    let r := applyBatchResults (pushSummary acc cap d) rest
    (r.1, r.2.1 + 1, r.2.2)
  | (_, none) :: rest =>
    let r := applyBatchResults acc rest
    (r.1, r.2.1, r.2.2 + 1)

/-- The main adaptive pass (lines 291-473).  The source loop is
for (let i = 0; i < n; i += currentBatchSize): the batch is the slice
starting at i of length currentBatchSize read BEFORE the controller update,
while the increment of i reads currentBatchSize AFTER the update, so the
remaining list is dropped by the updated batch size.  rem is the list
strategyCapInfos.drop i; the fuel argument only establishes structural
recursion and is set to the record count by the caller, which every
iteration keeps sufficient because the batch size stays at least 3. -/
def mainLoop (mainO : String → FetchOracle) :
    Nat → BatchState → Accum → List StrategyCapInfo → BatchState × Accum
  | 0, st, acc, _ => (st, acc)
  | _ + 1, st, acc, [] => (st, acc)
  | fuel + 1, st, acc, cap :: rest =>
    let rem := cap :: rest
    let batch := rem.take st.currentBatchSize
    let results := batch.map fun c => (c, (fetchMainPass (mainO c.obligationId)).1)
    let step := applyBatchResults acc results
    let st' := updateController st batch.length step.2.1 step.2.2
    mainLoop mainO fuel st' step.1 (rem.drop st'.currentBatchSize)

/-- The cleanup pass body (lines 501-572): strictly sequential over the
failed records, each with the 5-attempt cleanup fetch; a recovered record is
merged into the accumulator exactly as in the main pass, a still-failing
record is skipped.  Returns the accumulator and the number of recovered
records (cleanupSuccesses). -/
def cleanupLoop (cleanO : String → FetchOracle) (acc : Accum) :
    List StrategyCapInfo → Accum × Nat
  | [] => (acc, 0)
  | cap :: rest =>
    match (fetchCleanupPass (cleanO cap.obligationId)).1 with
    | some d =>
      let r := cleanupLoop cleanO (pushSummary acc cap d) rest
      (r.1, r.2 + 1)
    | none => cleanupLoop cleanO acc rest

/-- Ordering used for the final obligations list (lines 656-658): the sort
comparator (a, b) => b.deposited_value_usd - a.deposited_value_usd orders by
deposited value descending. -/
def depositGE (a b : ObligationSummary) : Prop :=
  b.deposited_value_usd ≤ a.deposited_value_usd

instance : DecidableRel depositGE := fun a b =>
  inferInstanceAs (Decidable (b.deposited_value_usd ≤ a.deposited_value_usd))

instance : IsTotal ObligationSummary depositGE :=
  ⟨fun a b => le_total b.deposited_value_usd a.deposited_value_usd⟩

instance : IsTrans ObligationSummary depositGE :=
  ⟨fun _ _ _ h1 h2 => le_trans h2 h1⟩

/-- obligations.sort((a, b) => b.deposited_value_usd - a.deposited_value_usd),
lines 656-658, modelled as a comparison sort by the comparator order. -/
def sortByDepositsDesc (l : List ObligationSummary) : List ObligationSummary :=
  l.insertionSort depositGE

/-- Everything the run leaves behind that the claims talk about: the
TVLSummary handed to setTvlData, the final controller state (reported in the
final log lines), and the cleanup recovery count. -/
structure RunResult where
  report : TVLSummary
  finalState : BatchState
  cleanupRecovered : Nat
deriving DecidableEq, Repr

/-- Extraction followed by the adaptive main pass, started with fuel equal
to the record count (sufficient, since every iteration consumes at least
one record). -/
def mainPass (caps : List ResolvedCap) (mainO : String → FetchOracle) :
    BatchState × Accum :=
  let infos := extractCapInfos caps
  mainLoop mainO infos.length initController accum0 infos

/-- The accumulator after both passes, with the cleanup recovery count.  The
cleanup pass runs only when strategyCapInfos.length - obligations.length is
positive (lines 476-479; a JavaScript negative difference and the Nat
truncated difference both skip the pass), over the records whose obligation
id is not among the successfully fetched ids (lines 488-491). -/
def finalAccum (caps : List ResolvedCap) (mainO cleanO : String → FetchOracle) :
    Accum × Nat :=
  let infos := extractCapInfos caps
  let accMain := (mainPass caps mainO).2
  let initialFailedCount := infos.length - accMain.obligations.length
  if 0 < initialFailedCount then
    let successfulIds := accMain.obligations.map fun o => o.obligationId
    let failedCapInfos :=
      infos.filter fun c => !(successfulIds.contains c.obligationId)
    cleanupLoop cleanO accMain failedCapInfos
  else (accMain, 0)

/-- Step 5 (lines 588-659): the report, with strategyCount the number of
accumulated summaries and the obligations sorted by deposited value
descending. -/
def buildReport (acc : Accum) : TVLSummary :=
  { totalTVL := acc.totalTVL
    totalDeposits := acc.totalDeposits
    totalBorrows := acc.totalBorrows
    strategyCount := acc.obligations.length
    obligations := sortByDepositsDesc acc.obligations }

/-- The whole pipeline from the resolved cap objects on (lines 239-662).
Zero resolved caps: the source logs a warning and returns without building
a report (lines 239-243), modelled as none.  Otherwise the report built
from the accumulator of both passes, together with the final controller
state. -/
def runPipeline (caps : List ResolvedCap) (mainO cleanO : String → FetchOracle) :
    Option RunResult :=
  if caps.length = 0 then none
  else
    some
      { report := buildReport (finalAccum caps mainO cleanO).1
        finalState := (mainPass caps mainO).1
        cleanupRecovered := (finalAccum caps mainO cleanO).2 }

/-- One batch of the main pass as the controller sees it: the batch length
and the success and failure counts. -/
structure BatchOutcome where
  len : Nat
  succ : Nat
  fail : Nat
deriving DecidableEq, Repr

/-- The controller state after a sequence of batch outcomes, starting from
the initial state; every controller state reachable in a run is of this
shape, mainLoop applies updateController to exactly such a fold. -/
def controllerTrace (outs : List BatchOutcome) : BatchState :=
  outs.foldl (fun st b => updateController st b.len b.succ b.fail) initController

/-- The aggressive-slowdown branch (lines 390-402) as a standalone state
transformer: batchSize to max(before - 5, 3), delay to
min(before + 400, 2000), recovery mode on, consecutiveSuccesses reset,
consecutiveFailures incremented. -/
def aggressiveBranch (st : BatchState) (batchFailures : Nat) : BatchState :=
  { st with
      failureRecoveryMode := true
      consecutiveFailures := st.consecutiveFailures + 1
      consecutiveSuccesses := 0
      currentBatchSize := max (st.currentBatchSize - 5) 3
      currentDelay := min (st.currentDelay + 400) 2000
      lastFailureCount := batchFailures }

/-- The no-failures, success rate at least 95 branch (lines 412-432) as a
standalone state transformer: count the success, exit recovery mode at 3
accumulated successes, and outside recovery mode speed up from the second
accumulated success on. -/
def speedUpBranch (st : BatchState) : BatchState :=
  let cs := st.consecutiveSuccesses + 1
  let rm := if st.failureRecoveryMode = true ∧ 3 ≤ cs then false else st.failureRecoveryMode
  if rm = false ∧ 2 ≤ cs then
    { st with
        consecutiveSuccesses := cs
        consecutiveFailures := 0
        failureRecoveryMode := rm
        currentBatchSize := min (st.currentBatchSize + 3) 20
        currentDelay := max (st.currentDelay - 100) 100 }
  else
    { st with
        consecutiveSuccesses := cs
        consecutiveFailures := 0
        failureRecoveryMode := rm }

/-- The bounds the specification states for the controller:
batchSize in [3, 20] and delay in [100, 2000]. -/
def ControllerBounds (st : BatchState) : Prop :=
  3 ≤ st.currentBatchSize ∧ st.currentBatchSize ≤ 20
    ∧ 100 ≤ st.currentDelay ∧ st.currentDelay ≤ 2000

/-! Concrete inputs used to evaluate the pipeline at specific runs. -/

/-- A fetch result carrying one dollar of deposits (10^18 on the wire). -/
def oneData : ObData := { depositedValueUsd := 10 ^ 18, unweightedBorrowedValueUsd := 0 }

/-- Twenty resolved caps with distinct obligation ids "0" .. "19". -/
def capsTwenty : List ResolvedCap :=
  (List.range 20).map fun n =>
    { objectId := toString n
      innerObligationId := some (toString n)
      strategyType := 0
      owner := "w" }

/-- Main-pass oracle for which exactly the obligations "10" .. "19" fetch
successfully (on the first attempt) and the rest always fail. -/
def upperHalfO : String → FetchOracle := fun id _ =>
  if ["10", "11", "12", "13", "14", "15", "16", "17", "18", "19"].contains id then
    some oneData
  else none

/-- Main-pass oracle for which exactly the obligations "10" .. "14", "18"
and "19" fetch successfully and the rest always fail. -/
def sevenO : String → FetchOracle := fun id _ =>
  if ["10", "11", "12", "13", "14", "18", "19"].contains id then some oneData
  else none

/-- An oracle that always fails. -/
def failO : String → FetchOracle := fun _ _ => none

/-- An oracle that always succeeds on the first attempt. -/
def succeedO : String → FetchOracle := fun _ _ => some oneData

/-- A single-attempt oracle that always fails, for exercising one retry
loop. -/
def oracleAllFail : FetchOracle := fun _ => none

/-- One resolved cap with obligation id "x". -/
def capsOne : List ResolvedCap :=
  [{ objectId := "x", innerObligationId := some "x", strategyType := 0, owner := "w" }]

/-- The run result of the pipeline on capsOne with an always-succeeding
oracle, written out. -/
def resultOne : RunResult :=
  { report :=
      { totalTVL := 1
        totalDeposits := 1
        totalBorrows := 0
        strategyCount := 1
        obligations :=
          [{ obligationId := "x"
             deposited_value_usd := 1
             unweighted_borrowed_value_usd := 0
             net_value_usd := 1
             strategyType := 0
             owner := "w"
             objectId := "x" }] }
    finalState :=
      { currentBatchSize := 15
        currentDelay := 300
        consecutiveSuccesses := 1
        consecutiveFailures := 0
        failureRecoveryMode := false
        lastFailureCount := 0 }
    cleanupRecovered := 0 }

/-- A controller state inside recovery mode with no accumulated successes,
as left behind by one aggressive batch from the start state. -/
def recoveryState : BatchState := aggressiveBranch initController 1

/-! ### Controller preservation lemmas -/

theorem updateController_bs_lower {st : BatchState} (l s f : Nat)
    (h : 3 ≤ st.currentBatchSize) :
    3 ≤ (updateController st l s f).currentBatchSize := by
  simp only [updateController]
  split_ifs <;> simp <;> omega

theorem updateController_bs_upper {st : BatchState} (l s f : Nat)
    (h : st.currentBatchSize ≤ 20) :
    (updateController st l s f).currentBatchSize ≤ 20 := by
  simp only [updateController]
  split_ifs <;> simp <;> omega

theorem updateController_bounds {st : BatchState} (l s f : Nat)
    (h : ControllerBounds st) :
    ControllerBounds (updateController st l s f) := by
  obtain ⟨h1, h2, h3, h4⟩ := h
  simp only [ControllerBounds, updateController]
  split_ifs <;> simp <;> omega

theorem updateController_bs_mono {st : BatchState} (l s : Nat)
    (h : st.currentBatchSize ≤ 20) :
    st.currentBatchSize ≤ (updateController st l s 0).currentBatchSize := by
  simp only [updateController]
  split_ifs <;> simp <;> omega

theorem foldl_updateController_bounds (outs : List BatchOutcome) :
    ∀ st : BatchState, ControllerBounds st →
      ControllerBounds
        (outs.foldl (fun st b => updateController st b.len b.succ b.fail) st) := by
  induction outs with
  | nil => intro st h; exact h
  | cons b rest ih =>
    intro st h
    exact ih _ (updateController_bounds b.len b.succ b.fail h)

theorem initController_bounds : ControllerBounds initController := by
  refine ⟨?_, ?_, ?_, ?_⟩ <;> decide

theorem mainLoop_state_bounds (mainO : String → FetchOracle) :
    ∀ (fuel : Nat) (st : BatchState) (acc : Accum) (rem : List StrategyCapInfo),
      ControllerBounds st → ControllerBounds (mainLoop mainO fuel st acc rem).1 := by
  intro fuel
  induction fuel with
  | zero => intro st acc rem h; exact h
  | succ fuel ih =>
    intro st acc rem h
    cases rem with
    | nil => exact h
    | cons cap rest =>
      simp only [mainLoop]
      exact ih _ _ _ (updateController_bounds _ _ _ h)

/-- C7: throughout every run of the adaptive batch fetcher the controller
satisfies 3 ≤ batchSize ≤ 20 and 100 ≤ delayMs ≤ 2000: the bounds hold
after every sequence of batch transitions from the start state (batchSize
15, delay 300), and in particular for the final controller state of every
run of the pipeline. -/
theorem c7_controller_bounds :
    (∀ outs : List BatchOutcome, ControllerBounds (controllerTrace outs))
    ∧ ∀ (caps : List ResolvedCap) (mainO cleanO : String → FetchOracle) (r : RunResult),
        runPipeline caps mainO cleanO = some r → ControllerBounds r.finalState := by
  constructor
  · intro outs
    exact foldl_updateController_bounds outs initController initController_bounds
  · intro caps mainO cleanO r h
    rw [runPipeline] at h
    split at h
    · exact absurd h (by simp)
    · cases h
      exact mainLoop_state_bounds mainO _ _ _ _ initController_bounds

/-- C7 witness: the bounds at two concrete points, one batch trace and one
concrete pipeline run. -/
theorem c7_controller_bounds_witness :
    ControllerBounds (controllerTrace [⟨15, 5, 10⟩])
    ∧ ControllerBounds resultOne.finalState :=
  ⟨c7_controller_bounds.1 [⟨15, 5, 10⟩],
   c7_controller_bounds.2 capsOne succeedO succeedO resultOne
     (by with_unfolding_all decide)⟩

/-! ### Controller branch characterizations -/

theorem batchSuccessRate_self {len : Nat} (h : 1 ≤ len) :
    batchSuccessRate len len = 100 := by
  have hne : ((len : ℚ)) ≠ 0 := Nat.cast_ne_zero.mpr (by omega)
  simp [batchSuccessRate, div_self hne]

theorem updateController_aggressive (st : BatchState) (len succ fail : Nat)
    (h1 : 0 < fail)
    (h2 : ceilFifth len < fail ∨ batchSuccessRate len succ < 70) :
    updateController st len succ fail = aggressiveBranch st fail := by
  simp only [updateController, aggressiveBranch]
  rw [if_pos h1, if_pos h2]

theorem updateController_moderate (st : BatchState) (len succ fail : Nat)
    (h1 : 0 < fail)
    (h2 : ¬(ceilFifth len < fail ∨ batchSuccessRate len succ < 70)) :
    updateController st len succ fail =
      { st with
          currentBatchSize := max (st.currentBatchSize - 2) 5
          currentDelay := min (st.currentDelay + 200) 2000
          lastFailureCount := fail } := by
  simp only [updateController]
  rw [if_pos h1, if_neg h2]

theorem updateController_fullSuccess (st : BatchState) {len : Nat} (h : 1 ≤ len) :
    updateController st len len 0 = speedUpBranch st := by
  have hr := batchSuccessRate_self h
  simp only [updateController, speedUpBranch, hr]
  norm_num

/-- C10: a non-empty batch with zero failures has success rate exactly 100,
so it never satisfies the guards of the stability-band branch (rate below
95) or of the final branch (rate below 90), and the controller transition
is exactly the no-failures, rate at least 95 branch. -/
theorem c10_zero_failures_full_rate (st : BatchState) (len : Nat) (h : 1 ≤ len) :
    batchSuccessRate len len = 100
    ∧ ¬ batchSuccessRate len len < 95
    ∧ ¬ batchSuccessRate len len < 90
    ∧ updateController st len len 0 = speedUpBranch st :=
  ⟨batchSuccessRate_self h,
   by rw [batchSuccessRate_self h]; norm_num,
   by rw [batchSuccessRate_self h]; norm_num,
   updateController_fullSuccess st h⟩

/-- C10 witness: the zero-failure characterization at batch length 5 from
the start state. -/
theorem c10_zero_failures_full_rate_witness :
    1 ≤ 5
    ∧ (batchSuccessRate 5 5 = 100
        ∧ ¬ batchSuccessRate 5 5 < 95
        ∧ ¬ batchSuccessRate 5 5 < 90
        ∧ updateController initController 5 5 0 = speedUpBranch initController) :=
  ⟨by decide, c10_zero_failures_full_rate initController 5 (by decide)⟩

/-- C4 counterexample: a batch of 7 with 2 failures has failure fraction
2/7, which exceeds 20 percent, has at least one failure, and has success
rate 5/7 (about 71.4, not below 70); the claim therefore demands the
aggressive transition, but the source tests failures > ceil(len * 0.2) =
ceil(1.4) = 2, which is false, and takes the moderate branch: batchSize
15 -> 13 (not max(15 - 5, 3) = 10), delay 300 -> 500 (not 700), recovery
mode stays off. -/
theorem c4_fraction_threshold_cex :
    ((2 : ℚ) / 7 > 20 / 100)
    ∧ (0 : Nat) < 2
    ∧ updateController initController 7 5 2 ≠ aggressiveBranch initController 2
    ∧ (updateController initController 7 5 2).currentBatchSize = 13
    ∧ (updateController initController 7 5 2).currentDelay = 500
    ∧ (updateController initController 7 5 2).failureRecoveryMode = false := by
  with_unfolding_all decide

/-- C4 amended: for every batch with at least one failure whose failure
count exceeds ceil(batchLen * 0.2) (the code's significant-failure test,
strictly stronger than failure fraction > 20 percent) or whose success rate
is below 70, the transition is the aggressive one: batchSize to
max(before - 5, 3), delay to min(before + 400, 2000), recovery mode on,
consecutiveSuccesses reset to 0, consecutiveFailures incremented. -/
theorem c4_aggressive_slowdown (st : BatchState) (len succ fail : Nat)
    (h1 : 0 < fail)
    (h2 : ceilFifth len < fail ∨ batchSuccessRate len succ < 70) :
    updateController st len succ fail = aggressiveBranch st fail :=
  updateController_aggressive st len succ fail h1 h2

/-- C4 witness: the aggressive transition on a batch of 15 with 10
failures. -/
theorem c4_aggressive_slowdown_witness :
    ((0 : Nat) < 10 ∧ ceilFifth 15 < 10)
    ∧ updateController initController 15 5 10 = aggressiveBranch initController 10 :=
  ⟨⟨by decide, by decide⟩,
   c4_aggressive_slowdown initController 15 5 10 (by decide) (Or.inl (by decide))⟩

/-- C5 counterexample: from the start state, an aggressive batch enters
recovery mode; two perfect batches accumulate two successes; a minor-failure
batch (1 failure out of 10, moderate branch) does NOT reset the counter;
the next perfect batch is then the third accumulated success and exits
recovery mode — although the three qualifying batches were not consecutive
(the fourth batch had a failure), contradicting the claim that the exit
requires 3 consecutive zero-failure batches. -/
theorem c5_nonconsecutive_exit_cex :
    (controllerTrace [⟨15, 5, 10⟩, ⟨10, 10, 0⟩, ⟨10, 10, 0⟩, ⟨10, 9, 1⟩]).failureRecoveryMode
        = true
    ∧ (controllerTrace
          [⟨15, 5, 10⟩, ⟨10, 10, 0⟩, ⟨10, 10, 0⟩, ⟨10, 9, 1⟩, ⟨8, 8, 0⟩]).failureRecoveryMode
        = false := by
  with_unfolding_all decide

/-- C5 amended: while in recovery mode a zero-failure batch exits recovery
iff consecutiveSuccesses is already at least 2 (reaching 3 with this
batch).  Entering recovery (the aggressive branch) resets the counter to 0
and turns recovery mode on, so at least 3 qualifying batches after entering
are needed and 2 alone never exit; but the qualifying batches need not be
consecutive, because a minor-failure (moderate) batch leaves both the
counter and the recovery flag unchanged. -/
theorem c5_recovery_exit_count :
    (∀ (st : BatchState) (len : Nat), st.failureRecoveryMode = true → 1 ≤ len →
        ((updateController st len len 0).failureRecoveryMode = false
          ↔ 2 ≤ st.consecutiveSuccesses))
    ∧ (∀ (st : BatchState) (len succ fail : Nat), 0 < fail →
        (ceilFifth len < fail ∨ batchSuccessRate len succ < 70) →
          (updateController st len succ fail).failureRecoveryMode = true
          ∧ (updateController st len succ fail).consecutiveSuccesses = 0)
    ∧ (∀ (st : BatchState) (len succ fail : Nat), 0 < fail →
        ¬(ceilFifth len < fail ∨ batchSuccessRate len succ < 70) →
          (updateController st len succ fail).failureRecoveryMode
              = st.failureRecoveryMode
          ∧ (updateController st len succ fail).consecutiveSuccesses
              = st.consecutiveSuccesses) := by
  refine ⟨?_, ?_, ?_⟩
  · intro st len hrm hlen
    rw [updateController_fullSuccess st hlen]
    simp only [speedUpBranch, hrm]
    split_ifs <;> simp_all
  · intro st len succ fail h1 h2
    rw [updateController_aggressive st len succ fail h1 h2]
    exact ⟨rfl, rfl⟩
  · intro st len succ fail h1 h2
    rw [updateController_moderate st len succ fail h1 h2]
    exact ⟨rfl, rfl⟩

/-- C5 witness: the three parts at concrete states: no exit from a fresh
recovery state, entering recovery on a failed batch, preservation across a
minor-failure batch. -/
theorem c5_recovery_exit_count_witness :
    ((updateController recoveryState 5 5 0).failureRecoveryMode = false
        ↔ 2 ≤ recoveryState.consecutiveSuccesses)
    ∧ ((updateController initController 15 5 10).failureRecoveryMode = true
        ∧ (updateController initController 15 5 10).consecutiveSuccesses = 0)
    ∧ ((updateController initController 15 14 1).failureRecoveryMode
          = initController.failureRecoveryMode
        ∧ (updateController initController 15 14 1).consecutiveSuccesses
          = initController.consecutiveSuccesses) :=
  ⟨c5_recovery_exit_count.1 recoveryState 5 rfl (by decide),
   c5_recovery_exit_count.2.1 initController 15 5 10 (by decide) (Or.inl (by decide)),
   c5_recovery_exit_count.2.2 initController 15 14 1 (by decide)
     (by with_unfolding_all decide)⟩

/-- C6 counterexample: outside recovery mode, a perfect batch (counter to 1,
no change), then a minor-failure batch (moderate branch: batchSize 15 -> 13,
delay 300 -> 500, counter kept at 1), then a perfect batch: that batch is
the FIRST zero-failure batch of its consecutive streak, yet the controller
speeds up on it (batchSize 13 -> 16, delay 500 -> 400) because the counter
survived the failure batch — contradicting the claim that the first such
batch causes no size/delay change. -/
theorem c6_first_streak_batch_speedup_cex :
    (controllerTrace [⟨15, 15, 0⟩, ⟨15, 14, 1⟩]).currentBatchSize = 13
    ∧ (controllerTrace [⟨15, 15, 0⟩, ⟨15, 14, 1⟩]).failureRecoveryMode = false
    ∧ (controllerTrace [⟨15, 15, 0⟩, ⟨15, 14, 1⟩]).currentDelay = 500
    ∧ (controllerTrace [⟨15, 15, 0⟩, ⟨15, 14, 1⟩, ⟨13, 13, 0⟩]).currentBatchSize = 16
    ∧ (controllerTrace [⟨15, 15, 0⟩, ⟨15, 14, 1⟩, ⟨13, 13, 0⟩]).currentDelay = 400 := by
  with_unfolding_all decide

/-- C6 amended: outside recovery mode a zero-failure batch increments the
success counter and applies batchSize to min(before + 3, 20) and delay to
max(before - 100, 100) iff the counter was already at least 1; a qualifying
batch with counter 0 changes neither size nor delay.  Since minor-failure
batches preserve the counter, the speed-up can fire on the first qualifying
batch of a consecutive streak. -/
theorem c6_speedup_on_second_success (st : BatchState) (len : Nat)
    (hrm : st.failureRecoveryMode = false) (hlen : 1 ≤ len) :
    (1 ≤ st.consecutiveSuccesses →
        (updateController st len len 0).currentBatchSize
            = min (st.currentBatchSize + 3) 20
        ∧ (updateController st len len 0).currentDelay
            = max (st.currentDelay - 100) 100)
    ∧ (st.consecutiveSuccesses = 0 →
        (updateController st len len 0).currentBatchSize = st.currentBatchSize
        ∧ (updateController st len len 0).currentDelay = st.currentDelay
        ∧ (updateController st len len 0).consecutiveSuccesses
            = st.consecutiveSuccesses + 1) := by
  rw [updateController_fullSuccess st hlen]
  simp only [speedUpBranch, hrm]
  constructor
  · intro h1
    split_ifs <;> simp_all
  · intro h0
    split_ifs <;> simp_all

/-- C6 witness: from the start state (counter 0) a perfect batch changes
nothing; from the resulting state (counter 1) the next perfect batch speeds
up to batchSize 18 and delay 200. -/
theorem c6_speedup_on_second_success_witness :
    ((updateController (updateController initController 5 5 0) 5 5 0).currentBatchSize
        = min ((updateController initController 5 5 0).currentBatchSize + 3) 20)
    ∧ (updateController initController 5 5 0).currentBatchSize
        = initController.currentBatchSize :=
  ⟨((c6_speedup_on_second_success (updateController initController 5 5 0) 5
      (by with_unfolding_all decide) (by decide)).1 (by with_unfolding_all decide)).1,
   ((c6_speedup_on_second_success initController 5 (by decide) (by decide)).2
      (by decide)).1⟩

/-- C3 counterexample: with zero resolved candidate objects the pipeline
produces NO report at all (the source logs a warning and returns before
initializing the data client), rather than a report with positionCount 0
and totalTVL 0 as the claim states. -/
theorem c3_zero_candidates_cex : runPipeline [] failO failO = none := rfl

/-- C3 amended: whenever discovery yields zero candidate objects, the
pipeline returns early without producing any TVLReport (tvlData is left
unchanged), and in particular neither the adaptive fetcher nor the cleanup
pass runs. -/
theorem c3_zero_candidates_no_report :
    ∀ mainO cleanO : String → FetchOracle, runPipeline [] mainO cleanO = none :=
  fun _ _ => rfl

/-- C8: per-position fetches are retried locally within the stage's attempt
budget and never beyond it: the main-pass fetch depends only on attempts 1
to 3 and the cleanup fetch only on attempts 1 to 5; a fetch returns none
exactly when every attempt in the budget fails, in which case the waited
backoff is the full linear schedule (1000 + 2000 ms in the main pass,
2000 + 4000 + 6000 + 8000 ms in cleanup, attempt times step before each
retry, none after the final attempt); and an exhausted budget never aborts
the pipeline: on any non-empty input the run still produces a report. -/
theorem c8_retry_budget :
    (∀ o o' : FetchOracle, (∀ a, 1 ≤ a → a ≤ 3 → o a = o' a) →
        fetchMainPass o = fetchMainPass o')
    ∧ (∀ o o' : FetchOracle, (∀ a, 1 ≤ a → a ≤ 5 → o a = o' a) →
        fetchCleanupPass o = fetchCleanupPass o')
    ∧ (∀ o : FetchOracle,
        ((fetchMainPass o).1 = none ↔ o 1 = none ∧ o 2 = none ∧ o 3 = none)
        ∧ ((fetchCleanupPass o).1 = none ↔
            o 1 = none ∧ o 2 = none ∧ o 3 = none ∧ o 4 = none ∧ o 5 = none))
    ∧ (∀ o : FetchOracle, o 1 = none → o 2 = none → o 3 = none →
        (fetchMainPass o).2 = 1 * 1000 + 2 * 1000)
    ∧ (∀ o : FetchOracle, o 1 = none → o 2 = none → o 3 = none → o 4 = none →
        o 5 = none →
        (fetchCleanupPass o).2 = 1 * 2000 + 2 * 2000 + 3 * 2000 + 4 * 2000)
    ∧ (∀ (caps : List ResolvedCap) (mainO cleanO : String → FetchOracle),
        caps ≠ [] → (runPipeline caps mainO cleanO).isSome = true) := by
  refine ⟨?_, ?_, ?_, ?_, ?_, ?_⟩
  · intro o o' h
    have h1 := h 1 (by omega) (by omega)
    have h2 := h 2 (by omega) (by omega)
    have h3 := h 3 (by omega) (by omega)
    simp only [fetchMainPass, runAttempts, h1, h2, h3]
  · intro o o' h
    have h1 := h 1 (by omega) (by omega)
    have h2 := h 2 (by omega) (by omega)
    have h3 := h 3 (by omega) (by omega)
    have h4 := h 4 (by omega) (by omega)
    have h5 := h 5 (by omega) (by omega)
    simp only [fetchCleanupPass, runAttempts, h1, h2, h3, h4, h5]
  · intro o
    constructor
    · cases h1 : o 1 <;> cases h2 : o 2 <;> cases h3 : o 3 <;>
        simp [fetchMainPass, runAttempts, h1, h2, h3]
    · cases h1 : o 1 <;> cases h2 : o 2 <;> cases h3 : o 3 <;> cases h4 : o 4 <;>
        cases h5 : o 5 <;>
        simp [fetchCleanupPass, runAttempts, h1, h2, h3, h4, h5]
  · intro o h1 h2 h3
    simp [fetchMainPass, runAttempts, h1, h2, h3]
  · intro o h1 h2 h3 h4 h5
    simp [fetchCleanupPass, runAttempts, h1, h2, h3, h4, h5]
  · intro caps mainO cleanO h
    simp [runPipeline, h]

/-- C8 witness: exhausting the budget against an always-failing oracle
waits the full backoff schedule and yields none, and a concrete non-empty
run still produces a report. -/
theorem c8_retry_budget_witness :
    (fetchMainPass oracleAllFail).2 = 1 * 1000 + 2 * 1000
    ∧ (fetchCleanupPass oracleAllFail).2 = 1 * 2000 + 2 * 2000 + 3 * 2000 + 4 * 2000
    ∧ (runPipeline capsOne succeedO succeedO).isSome = true :=
  ⟨c8_retry_budget.2.2.2.1 oracleAllFail rfl rfl rfl,
   c8_retry_budget.2.2.2.2.1 oracleAllFail rfl rfl rfl rfl rfl,
   c8_retry_budget.2.2.2.2.2 capsOne succeedO succeedO (by decide)⟩

/-! ### Counting lemmas for the two passes -/

theorem pushSummary_obligations (acc : Accum) (cap : StrategyCapInfo) (d : ObData) :
    (pushSummary acc cap d).obligations
      = acc.obligations ++ [mkObligationSummary cap d] := rfl

theorem cleanupLoop_obligations_le (cleanO : String → FetchOracle) :
    ∀ (l : List StrategyCapInfo) (acc : Accum),
      (cleanupLoop cleanO acc l).1.obligations.length
        ≤ acc.obligations.length + l.length := by
  intro l
  induction l with
  | nil => intro acc; simp [cleanupLoop]
  | cons cap rest ih =>
    intro acc
    simp only [cleanupLoop]
    cases hf : (fetchCleanupPass (cleanO cap.obligationId)).1 with
    | none =>
      have := ih acc
      simp only [List.length_cons]
      omega
    | some d =>
      have := ih (pushSummary acc cap d)
      rw [pushSummary_obligations] at this
      simp only [List.length_append, List.length_cons, List.length_nil] at this ⊢
      omega

theorem drop_sublist_drop_of_le {α : Type} (l : List α) {m n : Nat} (h : m ≤ n) :
    List.Sublist (l.drop n) (l.drop m) := by
  have heq : l.drop n = (l.drop m).drop (n - m) := by
    rw [List.drop_drop]
    congr 1
    omega
  rw [heq]
  exact (List.drop_suffix (n - m) (l.drop m)).sublist

theorem length_filter_partition (l : List StrategyCapInfo) (f : StrategyCapInfo → Bool) :
    (l.filter f).length + (l.filter fun c => !(f c)).length = l.length := by
  induction l with
  | nil => simp
  | cons c rest ih =>
    cases hc : f c <;> simp [List.filter, hc] <;> omega

theorem length_le_filter_contains (news : List ObligationSummary)
    (infos : List StrategyCapInfo)
    (h : List.Sublist (news.map fun o => o.obligationId)
          (infos.map fun c => c.obligationId)) :
    news.length ≤ (infos.filter fun c =>
        (news.map fun o => o.obligationId).contains c.obligationId).length := by
  have hself : ((news.map fun o => o.obligationId).filter fun x =>
      (news.map fun o => o.obligationId).contains x) = news.map fun o => o.obligationId := by
    apply List.filter_eq_self.mpr
    intro a ha
    simpa using ha
  have hsub := h.filter fun x => (news.map fun o => o.obligationId).contains x
  rw [hself] at hsub
  have hlen := hsub.length_le
  rw [List.length_map, List.filter_map, List.length_map] at hlen
  simpa [Function.comp] using hlen

theorem applyBatchResults_allSome (g : StrategyCapInfo → Option ObData) :
    ∀ (batch : List StrategyCapInfo) (acc : Accum),
      (∀ c ∈ batch, (g c).isSome = true) →
      ∃ news,
        (applyBatchResults acc (batch.map fun c => (c, g c))).1.obligations
            = acc.obligations ++ news
        ∧ news.map (fun o => o.obligationId) = batch.map (fun c => c.obligationId)
        ∧ (applyBatchResults acc (batch.map fun c => (c, g c))).2.1 = batch.length
        ∧ (applyBatchResults acc (batch.map fun c => (c, g c))).2.2 = 0 := by
  intro batch
  induction batch with
  | nil =>
    intro acc _
    exact ⟨[], by simp [applyBatchResults], by simp, by simp [applyBatchResults],
      by simp [applyBatchResults]⟩
  | cons c rest ih =>
    intro acc h
    obtain ⟨d, hd⟩ := Option.isSome_iff_exists.mp (h c (List.mem_cons_self c rest))
    obtain ⟨news, h1, h2, h3, h4⟩ :=
      ih (pushSummary acc c d) fun x hx => h x (List.mem_cons_of_mem c hx)
    refine ⟨mkObligationSummary c d :: news, ?_, ?_, ?_, ?_⟩
    · simp only [List.map_cons, hd, applyBatchResults, h1, pushSummary_obligations]
      simp
    · simp [h2, mkObligationSummary]
    · simp only [List.map_cons, hd, applyBatchResults, h3, List.length_cons]
    · simp only [List.map_cons, hd, applyBatchResults, h4]

theorem mainLoop_allSucc_sublist (mainO : String → FetchOracle)
    (hAll : ∀ id, ((fetchMainPass (mainO id)).1).isSome = true) :
    ∀ (fuel : Nat) (st : BatchState) (acc : Accum) (rem : List StrategyCapInfo),
      st.currentBatchSize ≤ 20 →
      ∃ news,
        (mainLoop mainO fuel st acc rem).2.obligations = acc.obligations ++ news
        ∧ List.Sublist (news.map fun o => o.obligationId)
            (rem.map fun c => c.obligationId) := by
  intro fuel
  induction fuel with
  | zero =>
    intro st acc rem _
    exact ⟨[], by simp [mainLoop], by simp⟩
  | succ fuel ih =>
    intro st acc rem h20
    cases rem with
    | nil => exact ⟨[], by simp [mainLoop], by simp⟩
    | cons cap rest =>
      obtain ⟨news₁, e1, e2, e3, e4⟩ :=
        applyBatchResults_allSome (fun c => (fetchMainPass (mainO c.obligationId)).1)
          ((cap :: rest).take st.currentBatchSize) acc (fun c _ => hAll c.obligationId)
      simp only [mainLoop]
      rw [e3, e4]
      obtain ⟨news₂, f1, f2⟩ :=
        ih (updateController st ((cap :: rest).take st.currentBatchSize).length
              ((cap :: rest).take st.currentBatchSize).length 0)
          (applyBatchResults acc
            (((cap :: rest).take st.currentBatchSize).map fun c =>
              (c, (fetchMainPass (mainO c.obligationId)).1))).1
          ((cap :: rest).drop
            (updateController st ((cap :: rest).take st.currentBatchSize).length
              ((cap :: rest).take st.currentBatchSize).length 0).currentBatchSize)
          (updateController_bs_upper _ _ _ h20)
      refine ⟨news₁ ++ news₂, ?_, ?_⟩
      · rw [f1, e1, List.append_assoc]
      · rw [List.map_append, e2]
        have hmono := @updateController_bs_mono st
          ((cap :: rest).take st.currentBatchSize).length
          ((cap :: rest).take st.currentBatchSize).length h20
        have hdrop : List.Sublist
            ((cap :: rest).drop
              (updateController st ((cap :: rest).take st.currentBatchSize).length
                ((cap :: rest).take st.currentBatchSize).length 0).currentBatchSize)
            ((cap :: rest).drop st.currentBatchSize) :=
          drop_sublist_drop_of_le (cap :: rest) hmono
        have f2' := f2.trans (hdrop.map fun c => c.obligationId)
        have := (List.Sublist.append_left f2'
          (((cap :: rest).take st.currentBatchSize).map fun c => c.obligationId))
        rw [← List.map_append, List.take_append_drop] at this
        exact this

theorem finalAccum_obligations_le (caps : List ResolvedCap)
    (mainO cleanO : String → FetchOracle)
    (hAll : ∀ id, ((fetchMainPass (mainO id)).1).isSome = true) :
    (finalAccum caps mainO cleanO).1.obligations.length
      ≤ (extractCapInfos caps).length := by
  obtain ⟨news, h1, h2⟩ :=
    mainLoop_allSucc_sublist mainO hAll (extractCapInfos caps).length initController
      accum0 (extractCapInfos caps) (by decide)
  have h1' : (mainLoop mainO (extractCapInfos caps).length initController accum0
      (extractCapInfos caps)).2.obligations = news := by
    simpa [accum0] using h1
  simp only [finalAccum, mainPass]
  split_ifs with hc
  · refine le_trans (cleanupLoop_obligations_le cleanO _ _) ?_
    rw [h1']
    have hk := length_le_filter_contains news (extractCapInfos caps) h2
    have hpart := length_filter_partition (extractCapInfos caps)
      (fun c => (news.map fun o => o.obligationId).contains c.obligationId)
    omega
  · rw [h1']
    have := h2.length_le
    simpa using this

/-- C1: evaluation of the pipeline at the failing input.  Twenty records
with ids "0" to "19"; the main oracle succeeds exactly on "10" to "19"
(each fetch worth one dollar of deposits) and the cleanup oracle always
fails.  The first batch (15 records) has 10 failures, the controller cuts
batchSize 15 -> 10, and the loop increment then advances the index by the
UPDATED size, so the second batch re-covers records 10 to 14: the
successfully fetched record "10" yields TWO summaries, the report counts 15
positions though only 10 distinct records ever fetched, and totalTVL is 15
dollars instead of 10 — each overlapped record is double-counted in the
running totals. -/
theorem c1_overlap_double_summary :
    (runPipeline capsTwenty upperHalfO failO).map
        (fun r => ((r.report.obligations.map fun o => o.obligationId).count "10",
                   r.report.strategyCount, r.report.totalTVL))
      = some (2, 15, 15) := by
  with_unfolding_all decide

/-- C2 counterexample: twenty records; the main oracle succeeds exactly on
"10" to "14", "18" and "19", the cleanup oracle always succeeds.  Repeated
aggressive slowdowns shrink the batch size while the loop increment uses
the updated size, so overlapped records are fetched again and again (ids
"10" to "14" twice, "18" and "19" three times); the cleanup pass then also
recovers the 13 genuinely failed records.  The final report counts
positionCount = 29, strictly more than the 20 CapabilityRecords extracted,
refuting positionCount ≤ strategyCapInfos.length. -/
theorem c2_count_exceeds_records_cex :
    ((runPipeline capsTwenty sevenO succeedO).map fun r => r.report.strategyCount)
        = some 29
    ∧ (extractCapInfos capsTwenty).length = 20 := by
  with_unfolding_all decide

/-- C2 amended: in every run producing a report, positionCount
(strategyCount) equals the length of the positions list; and the bound
positionCount ≤ number of CapabilityRecords extracted holds whenever every
main-pass fetch succeeds within its attempt budget (then no batch ever has
failures, the controller never shrinks the batch size, and no record is
processed twice).  When a batch does shrink the batch size the bound can
fail, because the loop increment reads the updated size and re-processes
the overlap (see the counterexample). -/
theorem c2_count_eq_and_bounded :
    ∀ (caps : List ResolvedCap) (mainO cleanO : String → FetchOracle) (r : RunResult),
      runPipeline caps mainO cleanO = some r →
        r.report.strategyCount = r.report.obligations.length
        ∧ ((∀ id, ((fetchMainPass (mainO id)).1).isSome = true) →
            r.report.strategyCount ≤ (extractCapInfos caps).length) := by
  intro caps mainO cleanO r h
  rw [runPipeline] at h
  split at h
  · exact absurd h (by simp)
  · obtain rfl := Option.some.inj h
    constructor
    · simp [buildReport, sortByDepositsDesc, List.length_insertionSort]
    · intro hAll
      simpa [buildReport] using finalAccum_obligations_le caps mainO cleanO hAll

/-- C2 witness: the amended statement at a concrete one-record run with an
always-succeeding oracle. -/
theorem c2_count_eq_and_bounded_witness :
    resultOne.report.strategyCount = resultOne.report.obligations.length
    ∧ resultOne.report.strategyCount ≤ (extractCapInfos capsOne).length := by
  have h := c2_count_eq_and_bounded capsOne succeedO succeedO resultOne
    (by with_unfolding_all decide)
  exact ⟨h.1, h.2 fun id => rfl⟩

/-- C9: in every final report the positions list is sorted by deposited
value descending: every adjacent pair is ordered by depositGE. -/
theorem c9_positions_sorted_desc :
    ∀ (caps : List ResolvedCap) (mainO cleanO : String → FetchOracle) (r : RunResult),
      runPipeline caps mainO cleanO = some r →
        List.Chain' depositGE r.report.obligations := by
  intro caps mainO cleanO r h
  rw [runPipeline] at h
  split at h
  · exact absurd h (by simp)
  · obtain rfl := Option.some.inj h
    have hs : List.Sorted depositGE
        (sortByDepositsDesc (finalAccum caps mainO cleanO).1.obligations) :=
      List.sorted_insertionSort depositGE _
    exact List.Pairwise.chain' hs

/-- C9 witness: the sortedness at a concrete one-record run. -/
theorem c9_positions_sorted_desc_witness :
    List.Chain' depositGE resultOne.report.obligations :=
  c9_positions_sorted_desc capsOne succeedO succeedO resultOne
    (by with_unfolding_all decide)

end TVLMonitor
